import Mathlib

/-!
Verification of the planning and risk-assessment engine of the
eks-upgrade-planner repository, shallowly embedded in Lean.

Python strings are modelled as `List Char`.  Python `int()` / `float()`
parsing is modelled on ASCII digit strings (optional surrounding ASCII
whitespace, optional sign, underscore digit separators for `int()`);
`float()` values are modelled as exact decimal rationals represented as
scaled integers — IEEE-754 rounding is not modelled, and every concrete
comparison proved below has operands whose exact and rounded orderings
coincide.
-/

namespace EksPlanner

abbrev PyStr := List Char

/-- ASCII whitespace stripped by Python `int()` / `float()`. -/
def isPySpace (c : Char) : Bool :=
  c = ' ' || c = '\t' || c = '\n' || c = '\r' || c = '\x0b' || c = '\x0c'

/-- Strip leading and trailing whitespace (Python `str.strip()` as used by `int()`). -/
def pyStrip (s : PyStr) : PyStr :=
  ((s.dropWhile isPySpace).reverse.dropWhile isPySpace).reverse

/-- Python `str.split(".")`: split on every occurrence of the dot. -/
def splitOnDot : PyStr → List PyStr
  | [] => [[]]
  | c :: cs =>
    if c = '.' then [] :: splitOnDot cs
    else
      match splitOnDot cs with
      | [] => [[c]]
      | p :: ps => (c :: p) :: ps

def digitVal (c : Char) : Nat := c.toNat - 48

/-- Numeric value of a digit string (most significant first). -/
def digitsToNat (l : List Char) : Nat := l.foldl (fun a c => a * 10 + digitVal c) 0

/-- Continuation of `pyDigits` after the first digit: digits with single
underscore separators allowed between digits, as in CPython's `int()`.
The flag records that the previous character was an underscore, so a digit
must follow. -/
def pyDigitsGo : Nat → Bool → List Char → Option Nat
  | acc, mustDigit, [] => if mustDigit then none else some acc
  | acc, mustDigit, c :: cs =>
    if c.isDigit then pyDigitsGo (acc * 10 + digitVal c) false cs
    else if c = '_' && !mustDigit then pyDigitsGo acc true cs
    else none

/-- Digit run of a CPython integer literal: `digit (('_')? digit)*`. -/
def pyDigits : List Char → Option Nat
  | [] => none
  | c :: cs => if c.isDigit then pyDigitsGo (digitVal c) false cs else none

/-- Python `int(s)`: strip whitespace, optional sign, digit run. -/
def pyInt? (s : PyStr) : Option Int :=
  match pyStrip s with
  | '+' :: rest => (pyDigits rest).map Int.ofNat
  | '-' :: rest => (pyDigits rest).map (fun n => -(Int.ofNat n))
  | t => (pyDigits t).map Int.ofNat

/-- Python substring test `needle in hay`. -/
def pyInStr : PyStr → PyStr → Bool
  | n, [] => n.isEmpty
  | n, h :: t => n.isPrefixOf (h :: t) || pyInStr n t

/-- Decimal rendering of a natural number (Python `str`). -/
def natChars (n : Nat) : PyStr := Nat.toDigits 10 n

/-- Decimal rendering of an integer (Python `str`, used by f-strings). -/
def intChars (i : Int) : PyStr :=
  if i < 0 then '-' :: natChars (-i).toNat else natChars i.toNat

/-! ### Exact model of Python `float()` on finite decimal literals

A parsed value is a pair `(num, scale)` denoting `num / 10 ^ scale`. -/

abbrev PyFloatVal := Int × Nat

/-- `a >= b` on exact decimal values. -/
def pfGe (a b : PyFloatVal) : Bool := b.1 * (10 : Int) ^ a.2 ≤ a.1 * (10 : Int) ^ b.2

/-- Mantissa of a float literal: `digits [. digits]` or `. digits`;
returns the scaled magnitude and the unconsumed rest. -/
def parseMantissa (l : List Char) : Option ((Nat × Nat) × List Char) :=
  let ip := l.takeWhile Char.isDigit
  let r1 := l.dropWhile Char.isDigit
  match r1 with
  | '.' :: r2 =>
    let fp := r2.takeWhile Char.isDigit
    let r3 := r2.dropWhile Char.isDigit
    if ip = [] && fp = [] then none
    else some ((digitsToNat ip * 10 ^ fp.length + digitsToNat fp, fp.length), r3)
  | _ => if ip = [] then none else some ((digitsToNat ip, 0), r1)

/-- Optional exponent suffix `e[sign]digits`; applied to a scaled magnitude. -/
def applyExp (m : Nat × Nat) (l : List Char) : Option (Nat × Nat) :=
  match l with
  | [] => some m
  | e :: rest =>
    if e = 'e' || e = 'E' then
      let signAndDigits :=
        match rest with
        | '+' :: ds => some (true, ds)
        | '-' :: ds => some (false, ds)
        | ds => some (true, ds)
      match signAndDigits with
      | some (pos, ds) =>
        if ds ≠ [] && ds.all Char.isDigit then
          let k := digitsToNat ds
          if pos then some (m.1 * 10 ^ k, m.2) else some (m.1, m.2 + k)
        else none
      | none => none
    else none

/-- Python `float(s)` restricted to finite decimal literals, as an exact value. -/
def pyFloat? (s : PyStr) : Option PyFloatVal :=
  let t := pyStrip s
  let (neg, body) :=
    match t with
    | '+' :: rest => (false, rest)
    | '-' :: rest => (true, rest)
    | _ => (false, t)
  match parseMantissa body with
  | none => none
  | some (m, rest) =>
    match applyExp m rest with
    | none => none
    | some (n, sc) => some (if neg then -(Int.ofNat n) else Int.ofNat n, sc)

/-! ### CompatibilityValidator (src/src/analyzer/compatibility.py) -/

/-- `_validate_version_format`: non-empty, exactly two dot-separated parts,
both `int()`-parseable, with `major > 0 and minor >= 0`. -/
def validate_version_format (version : PyStr) : Bool :=
  if version.isEmpty then false
  else
    match splitOnDot version with
    | [p0, p1] =>
      match pyInt? p0, pyInt? p1 with
      | some major, some minor => major > 0 && minor ≥ 0
      | _, _ => false
    | _ => false

/-- `_parse_version`: validate, then return the two integer components. -/
def parse_version (version : PyStr) : Option (Int × Int) :=
  if validate_version_format version then
    match splitOnDot version with
    | [p0, p1] =>
      match pyInt? p0, pyInt? p1 with
      | some a, some b => some (a, b)
      | _, _ => none
    | _ => none
  else none

/-- Catalog of supported EKS versions (the key set of `EKS_K8S_VERSIONS`,
injected reference data per §2/§9). -/
abbrev SupportedSet := PyStr → Bool

/-- `can_upgrade_directly`: format checks, support checks, then the
downgrade / same-version / consecutive-minor / skip / cross-major cases. -/
def can_upgrade_directly (supported : SupportedSet)
    (from_version to_version : PyStr) : Bool × PyStr :=
  if !validate_version_format from_version then
    (false, "Invalid source version format: ".data ++ from_version)
  else if !validate_version_format to_version then
    (false, "Invalid target version format: ".data ++ to_version)
  else if !supported from_version then
    (false, "Unsupported source version: ".data ++ from_version)
  else if !supported to_version then
    (false, "Unsupported target version: ".data ++ to_version)
  else
    match parse_version from_version, parse_version to_version with
    | some (from_major, from_minor), some (to_major, to_minor) =>
      if to_major < from_major ∨ (to_major = from_major ∧ to_minor < from_minor) then
        (false, "Cannot downgrade EKS versions".data)
      else if to_major = from_major ∧ to_minor = from_minor then
        (true, "Same version (no upgrade needed)".data)
      else if to_major = from_major then
        if to_minor - from_minor = 1 then (true, "Direct upgrade supported".data)
        else if to_minor - from_minor > 1 then
          (false, "Cannot skip minor versions in EKS upgrade".data)
        else (true, "Direct upgrade supported".data)
      else (false, "Cannot upgrade across major versions".data)
    | _, _ =>
      -- `except ValueError` branch; unreachable once both formats validate
      (false, "Invalid version format".data)

/-- The two-level `ADDON_COMPATIBILITY` dictionary:
EKS version ↦ addon name ↦ `[minimum, recommended]` version strings. -/
abbrev AddonCatalog := PyStr → Option (PyStr → Option (List PyStr))

/-- `check_addon_compatibility`: absent data ⇒ `(False, None)`; otherwise
substring containment of the current version in any catalog string, and the
last catalog string as recommendation. -/
def check_addon_compatibility (catalog : AddonCatalog)
    (addon_name addon_version eks_version : PyStr) : Bool × Option PyStr :=
  match catalog eks_version with
  | none => (false, none)
  | some addonMap =>
    match addonMap addon_name with
    | none => (false, none)
    | some compatible_versions =>
      let is_compatible := compatible_versions.any (fun v => pyInStr addon_version v)
      let recommended := compatible_versions.getLast?
      (is_compatible, recommended)

/-- An installed addon from the cluster snapshot (`{name, version}`). -/
structure Addon where
  name : PyStr
  version : PyStr
deriving DecidableEq

/-- Truthiness of an optional Python string (`None` and `""` are falsy). -/
def truthyOpt (o : Option PyStr) : Bool :=
  match o with
  | some s => !s.isEmpty
  | none => false

/-- One entry of `get_addon_recommendations`. -/
structure AddonRecommendation where
  addon_name : PyStr
  current_version : PyStr
  target_eks_version : PyStr
  is_compatible : Bool
  recommended_version : Option PyStr
  action_required : Bool
  action : PyStr
deriving DecidableEq

/-- `get_addon_recommendations`: one recommendation per input addon. -/
def get_addon_recommendations (catalog : AddonCatalog)
    (current_addons : List Addon) (target_eks_version : PyStr) :
    List AddonRecommendation :=
  current_addons.map fun addon =>
    let r := check_addon_compatibility catalog addon.name addon.version target_eks_version
    { addon_name := addon.name
      current_version := addon.version
      target_eks_version := target_eks_version
      is_compatible := r.1
      recommended_version := r.2
      action_required := !r.1
      action :=
        if !r.1 && truthyOpt r.2 then "Upgrade to ".data ++ r.2.getD []
        else if r.1 then "No action required".data
        else "Review addon compatibility manually".data }

/-- A `blocking_issues` entry of `validate_upgrade_path`
(the dictionaries tagged by their `type` field). -/
inductive BlockingIssue
  | version_incompatibility (message : PyStr)
  | addon_compatibility (message : PyStr) (addons : List AddonRecommendation)
deriving DecidableEq

/-- Result dictionary of `validate_upgrade_path`. -/
structure ValidationResult where
  current_version : PyStr
  target_version : PyStr
  can_upgrade : Bool
  reason : PyStr
  addons_compatible : Bool
  addon_recommendations : List AddonRecommendation
  blocking_issues : List BlockingIssue
deriving DecidableEq

/-- `validate_upgrade_path`: version check plus per-addon pass; failures are
aggregated into `blocking_issues`, never raised. -/
def validate_upgrade_path (supported : SupportedSet) (catalog : AddonCatalog)
    (current_version target_version : PyStr) (current_addons : List Addon) :
    ValidationResult :=
  let cu := can_upgrade_directly supported current_version target_version
  let addon_recommendations :=
    get_addon_recommendations catalog current_addons target_version
  let addons_need_upgrade := addon_recommendations.any (·.action_required)
  { current_version := current_version
    target_version := target_version
    can_upgrade := cu.1
    reason := cu.2
    addons_compatible := !addons_need_upgrade
    addon_recommendations := addon_recommendations
    blocking_issues :=
      (if !cu.1 then [BlockingIssue.version_incompatibility cu.2] else []) ++
      (if addons_need_upgrade then
        [BlockingIssue.addon_compatibility
          "Some addons require updates before upgrade".data
          (addon_recommendations.filter (·.action_required))]
      else []) }

/-! ### UpgradePathPlanner (src/src/planner/upgrade_path.py) -/

/-- Inline parsing step of `generate_upgrade_path`: split on the dot,
require two parts, convert with `int()`. -/
def split2int (v : PyStr) : Option (Int × Int) :=
  match splitOnDot v with
  | [p0, p1] =>
    match pyInt? p0, pyInt? p1 with
    | some a, some b => some (a, b)
    | _, _ => none
  | _ => none

/-- `generate_upgrade_path`: single-element path when already at or beyond
target (or on any parse error), else the chain of sequential minor versions;
cross-major falls back to `[current, target]`. -/
def generate_upgrade_path (current_version target_version : PyStr) : List PyStr :=
  match split2int current_version, split2int target_version with
  | some (current_major, current_minor), some (target_major, target_minor) =>
    if current_major > target_major ∨
        (current_major = target_major ∧ current_minor ≥ target_minor) then
      [current_version]
    else if current_major = target_major then
      current_version ::
        (List.range (target_minor - current_minor).toNat).map
          (fun i => intChars current_major ++ '.' :: intChars (current_minor + 1 + i))
    else
      [current_version, target_version]
  | _, _ => [current_version]

/-- `upgrade_timing` values. -/
inductive UpgradeTiming
  | before_eks
  | after_eks
deriving DecidableEq

/-- An addon with its assigned `upgrade_priority` and `upgrade_timing`. -/
structure OrderedAddon where
  name : PyStr
  version : PyStr
  upgrade_priority : Nat
  upgrade_timing : UpgradeTiming
deriving DecidableEq

/-- The `priority_order` table with its default of 99. -/
def addon_priority (name : PyStr) : Nat :=
  if name = "vpc-cni".data then 1
  else if name = "kube-proxy".data then 2
  else if name = "coredns".data then 3
  else if name = "aws-ebs-csi-driver".data then 4
  else 99

/-- Per-addon tagging step of `determine_addon_upgrade_order`. -/
def tag_addon (a : Addon) : OrderedAddon :=
  { name := a.name
    version := a.version
    upgrade_priority := addon_priority a.name
    upgrade_timing :=
      if addon_priority a.name ≤ 3 then UpgradeTiming.before_eks
      else UpgradeTiming.after_eks }

/-- The sort key used by `ordered_addons.sort(key=lambda x: x["upgrade_priority"])`. -/
def priorityLE (x y : OrderedAddon) : Prop :=
  x.upgrade_priority ≤ y.upgrade_priority

instance : DecidableRel priorityLE :=
  fun x y => Nat.decLe x.upgrade_priority y.upgrade_priority

instance : IsTotal OrderedAddon priorityLE :=
  ⟨fun x y => Nat.le_total x.upgrade_priority y.upgrade_priority⟩

instance : IsTrans OrderedAddon priorityLE :=
  ⟨fun _ _ _ h h' => Nat.le_trans h h'⟩

instance : IsRefl OrderedAddon priorityLE := ⟨fun x => Nat.le_refl x.upgrade_priority⟩

/-- `determine_addon_upgrade_order`: tag every addon, then stable sort by
ascending priority.  Python `list.sort` is a stable sort; it is modelled by
a stable sorting algorithm, which produces the identical list. -/
def determine_addon_upgrade_order (addons : List Addon) : List OrderedAddon :=
  (addons.map tag_addon).insertionSort priorityLE

/-! ### RiskAssessmentEngine (src/src/planner/risk_assessment.py) -/

/-- The four risk level strings `"LOW", "MEDIUM", "HIGH", "CRITICAL"`. -/
inductive RiskLevel
  | LOW
  | MEDIUM
  | HIGH
  | CRITICAL
deriving DecidableEq, Fintype

/-- `deprecation_info` of a flagged resource; `none` models an absent key. -/
structure DeprecationInfo where
  removed_in : Option PyStr
  replacement : Option PyStr
  migration_notes : Option PyStr
deriving DecidableEq

/-- A resource flagged as using a deprecated API (`ns` models the
`namespace` key). -/
structure DeprecatedResource where
  name : PyStr
  kind : PyStr
  ns : PyStr
  deprecation_info : DeprecationInfo
deriving DecidableEq

/-- One entry of the deprecated-API findings mapping:
API identifier ↦ affected resources. -/
structure ApiGroup where
  api_version : PyStr
  resources : List DeprecatedResource
deriving DecidableEq

/-- `r.get("deprecation_info", {}).get("removed_in")` is truthy. -/
def truthyRemovedIn (r : DeprecatedResource) : Bool :=
  truthyOpt r.deprecation_info.removed_in

/-- Result of `assess_deprecated_api_risk`. -/
structure ApiRisk where
  risk_level : RiskLevel
  total_deprecated : Nat
  removed_apis : Nat
  message : PyStr
deriving DecidableEq

/-- `assess_deprecated_api_risk`: any API with a (truthy) `removed_in`
record ⇒ CRITICAL; otherwise count thresholds. -/
def assess_deprecated_api_risk (deprecated_apis : List ApiGroup) : ApiRisk :=
  let total_deprecated := (deprecated_apis.map (fun g => g.resources.length)).sum
  let removed_apis :=
    deprecated_apis.countP (fun g => g.resources.any truthyRemovedIn)
  if removed_apis > 0 then
    { risk_level := RiskLevel.CRITICAL
      total_deprecated := total_deprecated
      removed_apis := removed_apis
      message := natChars removed_apis ++ " APIs will be removed in target version".data }
  else if total_deprecated > 10 then
    { risk_level := RiskLevel.HIGH
      total_deprecated := total_deprecated
      removed_apis := removed_apis
      message := natChars total_deprecated ++ " resources using deprecated APIs".data }
  else if total_deprecated > 5 then
    { risk_level := RiskLevel.MEDIUM
      total_deprecated := total_deprecated
      removed_apis := removed_apis
      message := natChars total_deprecated ++ " resources using deprecated APIs".data }
  else if total_deprecated > 0 then
    { risk_level := RiskLevel.LOW
      total_deprecated := total_deprecated
      removed_apis := removed_apis
      message := natChars total_deprecated ++ " resources using deprecated APIs".data }
  else
    { risk_level := RiskLevel.LOW
      total_deprecated := total_deprecated
      removed_apis := removed_apis
      message := "No deprecated APIs found".data }

/-- A breaking-change record. -/
structure BreakingChange where
  title : PyStr
  description : PyStr
  impact : PyStr
  action : PyStr
deriving DecidableEq

/-- Result of `assess_breaking_changes_risk`; `critical_changes` is absent
(`none`) in the empty-input branch. -/
structure BreakingRisk where
  risk_level : RiskLevel
  total_changes : Nat
  critical_changes : Option Nat
  message : PyStr
deriving DecidableEq

/-- `assess_breaking_changes_risk`. -/
def assess_breaking_changes_risk (breaking_changes : List BreakingChange) :
    BreakingRisk :=
  if breaking_changes.isEmpty then
    { risk_level := RiskLevel.LOW
      total_changes := 0
      critical_changes := none
      message := "No breaking changes identified".data }
  else
    let critical_changes := breaking_changes.filter (fun c => c.impact = "HIGH".data)
    let risk_level :=
      if critical_changes.length ≥ 3 then RiskLevel.HIGH
      else if critical_changes.length ≥ 1 then RiskLevel.MEDIUM
      else if breaking_changes.length > 5 then RiskLevel.MEDIUM
      else RiskLevel.LOW
    { risk_level := risk_level
      total_changes := breaking_changes.length
      critical_changes := some critical_changes.length
      message :=
        natChars breaking_changes.length ++ " breaking changes, ".data ++
          natChars critical_changes.length ++ " critical".data }

/-- Result of `assess_addon_compatibility_risk`; `critical_incompatible` is
absent (`none`) in the all-compatible branch. -/
structure AddonRisk where
  risk_level : RiskLevel
  incompatible_count : Nat
  critical_incompatible : Option Nat
  message : PyStr
deriving DecidableEq

/-- The fixed `critical_addons` list. -/
def critical_addons : List PyStr :=
  ["vpc-cni".data, "kube-proxy".data, "coredns".data]

/-- `assess_addon_compatibility_risk`. -/
def assess_addon_compatibility_risk
    (addon_recommendations : List AddonRecommendation) : AddonRisk :=
  let incompatible_addons :=
    addon_recommendations.filter (fun a => !a.is_compatible)
  if incompatible_addons.isEmpty then
    { risk_level := RiskLevel.LOW
      incompatible_count := 0
      critical_incompatible := none
      message := "All addons compatible".data }
  else
    let critical_incompatible :=
      incompatible_addons.filter (fun a => a.addon_name ∈ critical_addons)
    if !critical_incompatible.isEmpty then
      { risk_level := RiskLevel.HIGH
        incompatible_count := incompatible_addons.length
        critical_incompatible := some critical_incompatible.length
        message :=
          natChars critical_incompatible.length ++ " critical addons need updates".data }
    else if incompatible_addons.length > 3 then
      { risk_level := RiskLevel.MEDIUM
        incompatible_count := incompatible_addons.length
        critical_incompatible := some critical_incompatible.length
        message := natChars incompatible_addons.length ++ " addons need updates".data }
    else
      { risk_level := RiskLevel.LOW
        incompatible_count := incompatible_addons.length
        critical_incompatible := some critical_incompatible.length
        message := natChars incompatible_addons.length ++ " addons need updates".data }

/-- Result of `assess_version_jump_risk`; `version_jumps` is
`len(upgrade_path) - 1`, which is `-1` for an empty path. -/
structure VersionRisk where
  risk_level : RiskLevel
  version_jumps : Int
  message : PyStr
deriving DecidableEq

/-- `assess_version_jump_risk`. -/
def assess_version_jump_risk (upgrade_path : List PyStr) : VersionRisk :=
  let num_jumps : Int := (upgrade_path.length : Int) - 1
  if num_jumps = 0 then
    { risk_level := RiskLevel.LOW, version_jumps := num_jumps
      message := "No upgrade needed".data }
  else if num_jumps = 1 then
    { risk_level := RiskLevel.LOW, version_jumps := num_jumps
      message := "Single version upgrade".data }
  else if num_jumps = 2 then
    { risk_level := RiskLevel.MEDIUM, version_jumps := num_jumps
      message := "Two version upgrades required".data }
  else
    { risk_level := RiskLevel.HIGH, version_jumps := num_jumps
      message := intChars num_jumps ++ " sequential upgrades required".data }

/-- `scaling_config` of a node group. -/
structure ScalingConfig where
  desiredSize : Nat
deriving DecidableEq

/-- A node group from the cluster snapshot. -/
structure NodeGroup where
  name : PyStr
  version : PyStr
  scaling_config : ScalingConfig
deriving DecidableEq

/-- Result of `assess_cluster_size_risk`. -/
structure SizeRisk where
  risk_level : RiskLevel
  total_nodes : Nat
  node_groups : Nat
  message : PyStr
deriving DecidableEq

/-- `assess_cluster_size_risk`. -/
def assess_cluster_size_risk (node_groups : List NodeGroup) : SizeRisk :=
  let total_nodes := (node_groups.map (fun ng => ng.scaling_config.desiredSize)).sum
  if total_nodes > 100 then
    { risk_level := RiskLevel.HIGH, total_nodes := total_nodes
      node_groups := node_groups.length
      message := "Large cluster with ".data ++ natChars total_nodes ++ " nodes".data }
  else if total_nodes > 50 then
    { risk_level := RiskLevel.MEDIUM, total_nodes := total_nodes
      node_groups := node_groups.length
      message := "Medium cluster with ".data ++ natChars total_nodes ++ " nodes".data }
  else if total_nodes > 20 then
    { risk_level := RiskLevel.MEDIUM, total_nodes := total_nodes
      node_groups := node_groups.length
      message := "Cluster with ".data ++ natChars total_nodes ++ " nodes".data }
  else
    { risk_level := RiskLevel.LOW, total_nodes := total_nodes
      node_groups := node_groups.length
      message := "Small cluster with ".data ++ natChars total_nodes ++ " nodes".data }

/-- `_get_risk_score`: LOW=1, MEDIUM=2, HIGH=3, CRITICAL=4. -/
def get_risk_score (risk_level : RiskLevel) : Nat :=
  match risk_level with
  | RiskLevel.LOW => 1
  | RiskLevel.MEDIUM => 2
  | RiskLevel.HIGH => 3
  | RiskLevel.CRITICAL => 4

/-- `_calculate_overall_risk` on the `risk_level` fields of the
assessments: maximum score mapped back to a level (the dictionary lookup
defaults to MEDIUM for a score outside 1–4, which cannot occur). -/
def calculate_overall_risk (levels : List RiskLevel) : RiskLevel :=
  if levels.isEmpty then RiskLevel.LOW
  else
    let max_score := (levels.map get_risk_score).foldl Nat.max 0
    if max_score = 1 then RiskLevel.LOW
    else if max_score = 2 then RiskLevel.MEDIUM
    else if max_score = 3 then RiskLevel.HIGH
    else if max_score = 4 then RiskLevel.CRITICAL
    else RiskLevel.MEDIUM

/-- Result of `_estimate_downtime`.  The `recommended_window` field is a
rendering of `minimum_minutes` into hours and is omitted as presentational. -/
structure DowntimeEstimate where
  minimum_minutes : Int
  notes : PyStr
deriving DecidableEq

/-- `_estimate_downtime`. -/
def estimate_downtime (risk_level : RiskLevel) (version_jumps : Int)
    (total_nodes : Nat) : DowntimeEstimate :=
  let base_downtime : Int := 15
  let additional_time : Int :=
    (if risk_level = RiskLevel.HIGH ∨ risk_level = RiskLevel.CRITICAL then 30 else 0) +
    (if version_jumps > 1 then 15 * version_jumps else 0) +
    (if total_nodes > 50 then 30 else 0)
  { minimum_minutes := base_downtime + additional_time
    notes := "Control plane upgrade causes brief API unavailability".data }

/-- Result of `perform_comprehensive_assessment`; the five entries of
`individual_assessments` are the five typed fields. -/
structure ComprehensiveAssessment where
  overall_risk : RiskLevel
  risk_score : Nat
  deprecated_apis : ApiRisk
  breaking_changes : BreakingRisk
  addon_compatibility : AddonRisk
  version_jumps : VersionRisk
  cluster_size : SizeRisk
  risk_factors : List PyStr
  positive_factors : List PyStr
  mitigation_strategies : List PyStr
  estimated_downtime : DowntimeEstimate
  rollback_required : Bool
  staging_test_required : Bool
deriving DecidableEq

/-- `perform_comprehensive_assessment` (the unused `cluster_info` argument
is dropped). -/
def perform_comprehensive_assessment (upgrade_path : List PyStr)
    (deprecated_apis : List ApiGroup) (breaking_changes : List BreakingChange)
    (addon_recommendations : List AddonRecommendation)
    (node_groups : List NodeGroup) : ComprehensiveAssessment :=
  let api_risk := assess_deprecated_api_risk deprecated_apis
  let breaking_risk := assess_breaking_changes_risk breaking_changes
  let addon_risk := assess_addon_compatibility_risk addon_recommendations
  let version_risk := assess_version_jump_risk upgrade_path
  let size_risk := assess_cluster_size_risk node_groups
  let overall_risk := calculate_overall_risk
    [api_risk.risk_level, breaking_risk.risk_level, addon_risk.risk_level,
     version_risk.risk_level, size_risk.risk_level]
  let risk_factors :=
    (if api_risk.risk_level = RiskLevel.HIGH ∨ api_risk.risk_level = RiskLevel.CRITICAL
      then ["⚠️  ".data ++ api_risk.message] else []) ++
    (if breaking_risk.risk_level = RiskLevel.MEDIUM ∨ breaking_risk.risk_level = RiskLevel.HIGH
      then ["⚠️  ".data ++ breaking_risk.message] else []) ++
    (if addon_risk.risk_level = RiskLevel.MEDIUM ∨ addon_risk.risk_level = RiskLevel.HIGH
      then ["⚠️  ".data ++ addon_risk.message] else []) ++
    (if version_risk.version_jumps > 1
      then ["ℹ️  ".data ++ version_risk.message] else []) ++
    (if size_risk.risk_level = RiskLevel.MEDIUM ∨ size_risk.risk_level = RiskLevel.HIGH
      then ["ℹ️  ".data ++ size_risk.message] else [])
  let mitigation_strategies :=
    (if api_risk.risk_level = RiskLevel.HIGH ∨ api_risk.risk_level = RiskLevel.CRITICAL
      then ["Update all deprecated API usage before upgrade".data] else []) ++
    (if breaking_risk.risk_level = RiskLevel.MEDIUM ∨ breaking_risk.risk_level = RiskLevel.HIGH
      then ["Review and test all breaking changes in staging".data] else []) ++
    (if addon_risk.risk_level = RiskLevel.MEDIUM ∨ addon_risk.risk_level = RiskLevel.HIGH
      then ["Upgrade incompatible addons before EKS upgrade".data] else []) ++
    (if version_risk.version_jumps > 1
      then ["Plan for sequential upgrades with validation between".data] else []) ++
    (if size_risk.risk_level = RiskLevel.MEDIUM ∨ size_risk.risk_level = RiskLevel.HIGH
      then ["Plan for extended maintenance window".data] else [])
  let positive_factors :=
    (if api_risk.total_deprecated = 0 then ["✅ No deprecated APIs in use".data] else []) ++
    (if addon_risk.incompatible_count = 0 then ["✅ All addons compatible".data] else []) ++
    (if version_risk.version_jumps = 1 then ["✅ Single version upgrade".data] else [])
  { overall_risk := overall_risk
    risk_score := get_risk_score overall_risk
    deprecated_apis := api_risk
    breaking_changes := breaking_risk
    addon_compatibility := addon_risk
    version_jumps := version_risk
    cluster_size := size_risk
    risk_factors := risk_factors
    positive_factors := positive_factors
    mitigation_strategies := mitigation_strategies
    estimated_downtime :=
      estimate_downtime overall_risk version_risk.version_jumps size_risk.total_nodes
    rollback_required :=
      overall_risk = RiskLevel.HIGH ∨ overall_risk = RiskLevel.CRITICAL
    staging_test_required := true }

/-! ### MigrationPlanner (src/src/planner/migration_plan.py) -/

/-- One entry of `migrations_required` in `detect_migration_requirements`. -/
structure MigrationItem where
  resource_name : PyStr
  resource_kind : PyStr
  ns : PyStr
  current_api : PyStr
  replacement_api : Option PyStr
  migration_notes : Option PyStr
  priority : PyStr
deriving DecidableEq

/-- Result of `detect_migration_requirements`. -/
structure MigrationRequirements where
  migrations_required : Bool
  total_resources_affected : Nat
  critical_migrations : Nat
  migrations : List MigrationItem
deriving DecidableEq

/-- `detect_migration_requirements`: a resource is appended as a CRITICAL
migration when `float(target_version) >= float(removed_in)` (the `removed_in`
key defaults to `"999.0"`; a `ValueError` from either `float()` skips the
resource). -/
def detect_migration_requirements (deprecated_apis : List ApiGroup)
    (target_version : PyStr) : MigrationRequirements :=
  let total_resources := (deprecated_apis.map (fun g => g.resources.length)).sum
  let migrations :=
    deprecated_apis.flatMap fun g =>
      g.resources.filterMap fun r =>
        let removed_in := r.deprecation_info.removed_in.getD "999.0".data
        match pyFloat? target_version, pyFloat? removed_in with
        | some t, some rv =>
          if pfGe t rv then
            some { resource_name := r.name
                   resource_kind := r.kind
                   ns := r.ns
                   current_api := g.api_version
                   replacement_api := r.deprecation_info.replacement
                   migration_notes := r.deprecation_info.migration_notes
                   priority := "CRITICAL".data }
          else none
        | _, _ => none
  { migrations_required := migrations.length > 0
    total_resources_affected := total_resources
    critical_migrations := migrations.length
    migrations := migrations }

/-! ### The §3 comparison mandated by the specification

These definitions follow the specification's words (ordered-pair comparison
of §3), for comparison with the code's behaviour. -/

/-- The specification's §3 ordering: lexicographic on `(major, minor)`.
`specPairGE a b` means `a` has met or passed `b`. -/
def specPairGE (a b : Int × Int) : Prop :=
  b.1 < a.1 ∨ (a.1 = b.1 ∧ b.2 ≤ a.2)

instance (a b : Int × Int) : Decidable (specPairGE a b) := by
  unfold specPairGE; infer_instance

/-! ### Supporting lemmas about the string model -/

theorem splitOnDot_no_dot {s : PyStr} (h : '.' ∉ s) : splitOnDot s = [s] := by
  induction s with
  | nil => rfl
  | cons c cs ih =>
    have hc : ¬ c = '.' := fun hcc => h (hcc ▸ List.mem_cons_self c cs)
    have hcs : '.' ∉ cs := fun hm => h (List.mem_cons_of_mem c hm)
    simp only [splitOnDot, if_neg hc, ih hcs]

theorem splitOnDot_append {p q : PyStr} (h : '.' ∉ p) :
    splitOnDot (p ++ '.' :: q) = p :: splitOnDot q := by
  induction p with
  | nil => simp [splitOnDot]
  | cons c cs ih =>
    have hc : ¬ c = '.' := fun hcc => h (hcc ▸ List.mem_cons_self c cs)
    have hcs : '.' ∉ cs := fun hm => h (List.mem_cons_of_mem c hm)
    have hrw : (cs.append ('.' :: q)) = cs ++ '.' :: q := rfl
    simp only [List.cons_append, splitOnDot, if_neg hc, hrw, ih hcs]

theorem splitOnDot_ne_nil (s : PyStr) : splitOnDot s ≠ [] := by
  induction s with
  | nil => simp [splitOnDot]
  | cons c cs ih =>
    simp only [splitOnDot]
    split
    · simp
    · cases h : splitOnDot cs with
      | nil => simp
      | cons p ps => simp

theorem length_splitOnDot (s : PyStr) :
    (splitOnDot s).length = s.count '.' + 1 := by
  induction s with
  | nil => rfl
  | cons c cs ih =>
    by_cases hc : c = '.'
    · subst hc
      have h1 : splitOnDot ('.' :: cs) = [] :: splitOnDot cs := by
        simp [splitOnDot]
      rw [h1, List.length_cons, List.count_cons]
      simp only [beq_self_eq_true, if_true]
      omega
    · simp only [splitOnDot, if_neg hc]
      cases h : splitOnDot cs with
      | nil => exact absurd h (splitOnDot_ne_nil cs)
      | cons p ps =>
        have hlen : (p :: ps).length = cs.count '.' + 1 := h ▸ ih
        simp only [List.length_cons] at hlen ⊢
        rw [List.count_cons]
        simp only [beq_iff_eq]
        rw [if_neg hc]
        omega

theorem dropWhile_not_space {l : PyStr} (h : ∀ c ∈ l, isPySpace c = false) :
    l.dropWhile isPySpace = l := by
  cases l with
  | nil => rfl
  | cons c cs => simp [List.dropWhile_cons, h c (List.mem_cons_self c cs)]

theorem pyStrip_of_no_space {l : PyStr} (h : ∀ c ∈ l, isPySpace c = false) :
    pyStrip l = l := by
  unfold pyStrip
  rw [dropWhile_not_space h, dropWhile_not_space, List.reverse_reverse]
  intro c hc
  exact h c (List.mem_reverse.mp hc)

theorem isPySpace_of_digit {c : Char} (h : c.isDigit = true) :
    isPySpace c = false := by
  simp only [isPySpace, Bool.or_eq_false_iff, decide_eq_false_iff_not]
  repeat' apply And.intro
  all_goals (intro hc; subst hc; exact absurd h (by decide))

theorem digit_ne_underscore {c : Char} (h : c.isDigit = true) : c ≠ '_' := by
  intro hc; subst hc; exact absurd h (by decide)

theorem pyDigitsGo_all_digits {l : List Char} (h : ∀ c ∈ l, c.isDigit = true) :
    ∀ acc, pyDigitsGo acc false l =
      some (l.foldl (fun a c => a * 10 + digitVal c) acc) := by
  induction l with
  | nil => intro acc; rfl
  | cons c cs ih =>
    intro acc
    have hc : c.isDigit = true := h c (List.mem_cons_self c cs)
    have hcs : ∀ x ∈ cs, x.isDigit = true := fun x hx => h x (List.mem_cons_of_mem c hx)
    simp only [pyDigitsGo, hc, if_true, List.foldl]
    exact ih hcs _

theorem pyDigits_all_digits {l : List Char} (hne : l ≠ [])
    (h : ∀ c ∈ l, c.isDigit = true) : pyDigits l = some (digitsToNat l) := by
  cases l with
  | nil => exact absurd rfl hne
  | cons c cs =>
    have hc : c.isDigit = true := h c (List.mem_cons_self c cs)
    have hcs : ∀ x ∈ cs, x.isDigit = true := fun x hx => h x (List.mem_cons_of_mem c hx)
    simp only [pyDigits, hc, if_true, pyDigitsGo_all_digits hcs, digitsToNat, List.foldl,
      Nat.zero_mul, Nat.zero_add]

theorem pyInt?_all_digits {l : PyStr} (hne : l ≠ [])
    (h : ∀ c ∈ l, c.isDigit = true) :
    pyInt? l = some (Int.ofNat (digitsToNat l)) := by
  have hstrip : pyStrip l = l :=
    pyStrip_of_no_space (fun c hc => isPySpace_of_digit (h c hc))
  unfold pyInt?
  rw [hstrip]
  cases l with
  | nil => exact absurd rfl hne
  | cons c cs =>
    have hc : c.isDigit = true := h c (List.mem_cons_self c cs)
    have hplus : c ≠ '+' := by intro hcc; subst hcc; exact absurd hc (by decide)
    have hminus : c ≠ '-' := by intro hcc; subst hcc; exact absurd hc (by decide)
    split
    · next heq => rw [(List.cons.inj heq).1] at hplus; simp at hplus
    · next heq => rw [(List.cons.inj heq).1] at hminus; simp at hminus
    · rw [pyDigits_all_digits hne h]
      rfl

theorem digit_ne_dot {c : Char} (h : c.isDigit = true) : ¬ c = '.' := by
  intro hc; subst hc; simp [Char.isDigit] at h

theorem not_mem_dot_of_digits {p : PyStr} (h : ∀ c ∈ p, c.isDigit = true) :
    '.' ∉ p := fun hm => digit_ne_dot (h '.' hm) rfl

/-! ### Claim theorems -/

/-- C3 counterexample: the claim asserts that strings with major component 0,
such as "0.5", are accepted, but `_validate_version_format` requires
`major > 0` and rejects "0.5". -/
theorem C3_counterexample : validate_version_format "0.5".data = false := by decide

/-- C3 (amended): version parsing succeeds exactly for strings splitting on
"." into two integer-parseable parts with positive major and non-negative
minor.  In particular: it accepts every `<digits>.<digits>` string whose
major part is nonzero, rejects the empty string, rejects any string whose
dot count differs from one, rejects two-part strings with a non-parseable
part — and rejects major component 0, such as "0.5".  `_parse_version`
succeeds exactly when the validator accepts. -/
theorem C3_version_parsing :
    validate_version_format [] = false ∧
    (∀ p q : PyStr, p ≠ [] → q ≠ [] →
      (∀ c ∈ p, c.isDigit = true) → (∀ c ∈ q, c.isDigit = true) →
      (validate_version_format (p ++ '.' :: q) = true ↔ 0 < digitsToNat p)) ∧
    (∀ s : PyStr, s.count '.' ≠ 1 → validate_version_format s = false) ∧
    (∀ p q : PyStr, '.' ∉ p → '.' ∉ q →
      (pyInt? p = none ∨ pyInt? q = none) →
      validate_version_format (p ++ '.' :: q) = false) ∧
    (∀ s : PyStr, (parse_version s).isSome = validate_version_format s) := by
  refine ⟨rfl, ?_, ?_, ?_, ?_⟩
  · intro p q hp hq hdp hdq
    have hsplit : splitOnDot (p ++ '.' :: q) = [p, q] := by
      rw [splitOnDot_append (not_mem_dot_of_digits hdp),
        splitOnDot_no_dot (not_mem_dot_of_digits hdq)]
    have hip : pyInt? p = some (Int.ofNat (digitsToNat p)) := pyInt?_all_digits hp hdp
    have hiq : pyInt? q = some (Int.ofNat (digitsToNat q)) := pyInt?_all_digits hq hdq
    have hne : (p ++ '.' :: q).isEmpty = false := by
      cases p <;> simp [List.isEmpty]
    unfold validate_version_format
    rw [hne, if_neg (by simp), hsplit]
    show (match pyInt? p, pyInt? q with
      | some major, some minor => decide (major > 0) && decide (minor ≥ 0)
      | _, _ => false) = true ↔ 0 < digitsToNat p
    rw [hip, hiq]
    simp only [Bool.and_eq_true, decide_eq_true_eq, gt_iff_lt, ge_iff_le,
      Int.ofNat_eq_coe]
    omega
  · intro s hcount
    unfold validate_version_format
    split
    · rfl
    · have hlen : (splitOnDot s).length = s.count '.' + 1 := length_splitOnDot s
      rcases hsp : splitOnDot s with _ | ⟨a, _ | ⟨b, _ | ⟨c, rest⟩⟩⟩
      · rfl
      · rfl
      · rw [hsp] at hlen
        exact absurd (show s.count '.' = 1 by simp at hlen; omega) hcount
      · rfl
  · intro p q hp hq hnone
    have hsplit : splitOnDot (p ++ '.' :: q) = [p, q] := by
      rw [splitOnDot_append hp, splitOnDot_no_dot hq]
    have hne : (p ++ '.' :: q).isEmpty = false := by
      cases p <;> simp [List.isEmpty]
    unfold validate_version_format
    rw [hne, if_neg (by simp), hsplit]
    show (match pyInt? p, pyInt? q with
      | some major, some minor => decide (major > 0) && decide (minor ≥ 0)
      | _, _ => false) = false
    rcases hnone with h1 | h1
    · rw [h1]
    · rw [h1]
      cases pyInt? p <;> rfl
  · intro s
    unfold parse_version
    by_cases hv : validate_version_format s = true
    · rw [if_pos hv, hv]
      unfold validate_version_format at hv
      split at hv
      · exact absurd hv (by simp)
      · rcases hsp : splitOnDot s with _ | ⟨a, _ | ⟨b, _ | ⟨c, rest⟩⟩⟩
        · rw [hsp] at hv; simp at hv
        · rw [hsp] at hv; simp at hv
        · rw [hsp] at hv
          replace hv : (match pyInt? a, pyInt? b with
            | some major, some minor => decide (major > 0) && decide (minor ≥ 0)
            | _, _ => false) = true := hv
          show (match pyInt? a, pyInt? b with
            | some x, some y => some (x, y)
            | _, _ => none).isSome = true
          cases ha : pyInt? a with
          | none =>
            rw [ha] at hv
            exact Bool.noConfusion (show false = true from hv)
          | some x =>
            rw [ha] at hv
            cases hb : pyInt? b with
            | none =>
              rw [hb] at hv
              exact Bool.noConfusion (show false = true from hv)
            | some y => rfl
        · rw [hsp] at hv; simp at hv
    · rw [if_neg hv, Bool.eq_false_iff.mpr hv]
      rfl

/-- C3 witness: the amended characterization evaluated at "1.27"
(accepted, via the digit-string clause) and at a wrong-arity string. -/
theorem C3_version_parsing_witness :
    validate_version_format ("1".data ++ '.' :: "27".data) = true := by
  exact (C3_version_parsing.2.1 "1".data "27".data (by decide) (by decide)
    (by decide) (by decide)).mpr (by decide)

/-- C1: the code compares `float(target_version) >= float(removed_in)`, not
the §3 ordered-pair comparison.  At target "1.9" with `removed_in` "1.10",
the pair comparison says the removal threshold is not yet met, but
`detect_migration_requirements` nevertheless appends the resource as a
CRITICAL migration because `1.9 >= 1.1` numerically. -/
theorem C1_detect_migration_float_comparison :
    (detect_migration_requirements
      [{ api_version := "networking.k8s.io/v1beta1".data,
         resources := [{ name := "web".data, kind := "Ingress".data,
                         ns := "default".data,
                         deprecation_info :=
                           { removed_in := some "1.10".data,
                             replacement := some "networking.k8s.io/v1".data,
                             migration_notes := none } }] }]
      "1.9".data).critical_migrations = 1 ∧
    parse_version "1.9".data = some (1, 9) ∧
    parse_version "1.10".data = some (1, 10) ∧
    ¬ specPairGE (1, 9) (1, 10) := by
  refine ⟨by decide, by decide, by decide, by decide⟩

/-- C2 counterexample: `assess_deprecated_api_risk` never sees a target
version; it reports CRITICAL because the single resource carries a
`removed_in` of "999.0", even though no target such as "1.29" has met or
passed (999, 0) — where the claim (one resource, count ≤ 5) demands LOW. -/
theorem C2_counterexample :
    (assess_deprecated_api_risk
      [{ api_version := "apps/v1beta1".data,
         resources := [{ name := "web".data, kind := "Deployment".data,
                         ns := "default".data,
                         deprecation_info :=
                           { removed_in := some "999.0".data,
                             replacement := some "apps/v1".data,
                             migration_notes := none } }] }]).risk_level =
      RiskLevel.CRITICAL ∧
    (assess_deprecated_api_risk
      [{ api_version := "apps/v1beta1".data,
         resources := [{ name := "web".data, kind := "Deployment".data,
                         ns := "default".data,
                         deprecation_info :=
                           { removed_in := some "999.0".data,
                             replacement := some "apps/v1".data,
                             migration_notes := none } }] }]).total_deprecated = 1 ∧
    parse_version "1.29".data = some (1, 29) ∧
    parse_version "999.0".data = some (999, 0) ∧
    ¬ specPairGE (1, 29) (999, 0) := by
  refine ⟨by decide, by decide, by decide, by decide, by decide⟩

/-- C2 (amended): `assess_deprecated_api_risk` returns CRITICAL exactly when
some reported API has a resource whose deprecation record carries a truthy
`removed_in` value — regardless of any target version; otherwise the level
follows the count thresholds: HIGH above 10, MEDIUM above 5, LOW from 0 to
5 inclusive. -/
theorem C2_deprecated_api_risk (deprecated_apis : List ApiGroup) :
    ((assess_deprecated_api_risk deprecated_apis).risk_level = RiskLevel.CRITICAL ↔
      ∃ g ∈ deprecated_apis, ∃ r ∈ g.resources, truthyRemovedIn r = true) ∧
    ((assess_deprecated_api_risk deprecated_apis).total_deprecated =
      (deprecated_apis.map (fun g => g.resources.length)).sum) ∧
    ((¬ ∃ g ∈ deprecated_apis, ∃ r ∈ g.resources, truthyRemovedIn r = true) →
      (assess_deprecated_api_risk deprecated_apis).risk_level =
        (if (deprecated_apis.map (fun g => g.resources.length)).sum > 10 then
          RiskLevel.HIGH
         else if (deprecated_apis.map (fun g => g.resources.length)).sum > 5 then
          RiskLevel.MEDIUM
         else RiskLevel.LOW)) := by
  have hex : (0 < deprecated_apis.countP (fun g => g.resources.any truthyRemovedIn)) ↔
      ∃ g ∈ deprecated_apis, ∃ r ∈ g.resources, truthyRemovedIn r = true := by
    rw [List.countP_pos_iff]
    constructor
    · rintro ⟨g, hg, hany⟩
      exact ⟨g, hg, List.any_eq_true.mp hany⟩
    · rintro ⟨g, hg, hany⟩
      exact ⟨g, hg, List.any_eq_true.mpr hany⟩
  have htot : (assess_deprecated_api_risk deprecated_apis).total_deprecated =
      (deprecated_apis.map (fun g => g.resources.length)).sum := by
    simp only [assess_deprecated_api_risk]
    repeat' split
    all_goals rfl
  by_cases hR : 0 < deprecated_apis.countP (fun g => g.resources.any truthyRemovedIn)
  · refine ⟨?_, htot, fun hno => absurd (hex.mp hR) hno⟩
    simp only [assess_deprecated_api_risk]
    rw [if_pos (show _ > 0 from hR)]
    exact ⟨fun _ => hex.mp hR, fun _ => rfl⟩
  · have hlv : (assess_deprecated_api_risk deprecated_apis).risk_level =
        (if (deprecated_apis.map (fun g => g.resources.length)).sum > 10 then
          RiskLevel.HIGH
         else if (deprecated_apis.map (fun g => g.resources.length)).sum > 5 then
          RiskLevel.MEDIUM
         else RiskLevel.LOW) := by
      simp only [assess_deprecated_api_risk]
      rw [if_neg (show ¬ _ > 0 from hR)]
      by_cases h10 : (deprecated_apis.map (fun g => g.resources.length)).sum > 10
      · rw [if_pos h10, if_pos h10]
      · rw [if_neg h10, if_neg h10]
        by_cases h5 : (deprecated_apis.map (fun g => g.resources.length)).sum > 5
        · rw [if_pos h5, if_pos h5]
        · rw [if_neg h5, if_neg h5]
          by_cases h0 : (deprecated_apis.map (fun g => g.resources.length)).sum > 0
          · rw [if_pos h0]
          · rw [if_neg h0]
    refine ⟨?_, htot, fun _ => hlv⟩
    rw [hlv]
    constructor
    · intro hcrit
      exfalso
      revert hcrit
      split
      · exact fun h => RiskLevel.noConfusion h
      · split
        · exact fun h => RiskLevel.noConfusion h
        · exact fun h => RiskLevel.noConfusion h
    · intro hexists
      exact absurd (hex.mpr hexists) hR

/-- C2 witness: one resource with no `removed_in` record yields LOW via the
amended threshold clause. -/
theorem C2_deprecated_api_risk_witness :
    (assess_deprecated_api_risk
      [{ api_version := "apps/v1".data,
         resources := [{ name := "a".data, kind := "Deployment".data,
                         ns := "d".data,
                         deprecation_info :=
                           { removed_in := none, replacement := none,
                             migration_notes := none } }] }]).risk_level =
      RiskLevel.LOW := by
  have h := (C2_deprecated_api_risk
    [{ api_version := "apps/v1".data,
       resources := [{ name := "a".data, kind := "Deployment".data,
                       ns := "d".data,
                       deprecation_info :=
                         { removed_in := none, replacement := none,
                           migration_notes := none } }] }]).2.2 (by decide)
  rw [h]
  decide

theorem get_risk_score_inj :
    ∀ a b : RiskLevel, get_risk_score a = get_risk_score b → a = b := by decide

theorem calculate_overall_risk_score :
    ∀ l1 l2 l3 l4 l5 : RiskLevel,
      get_risk_score (calculate_overall_risk [l1, l2, l3, l4, l5]) =
        Nat.max (Nat.max (Nat.max (Nat.max (get_risk_score l1) (get_risk_score l2))
          (get_risk_score l3)) (get_risk_score l4)) (get_risk_score l5) := by decide

set_option maxHeartbeats 1000000 in
/-- C5: the overall risk level is the level whose score (LOW=1, MEDIUM=2,
HIGH=3, CRITICAL=4) is the maximum over the five per-factor levels — a pure
max; `rollback_required` holds exactly when the overall level is HIGH or
CRITICAL, and `staging_test_required` is true on every assessment. -/
theorem C5_overall_risk_aggregation (upgrade_path : List PyStr)
    (deprecated_apis : List ApiGroup) (breaking_changes : List BreakingChange)
    (addon_recommendations : List AddonRecommendation)
    (node_groups : List NodeGroup) :
    get_risk_score ((perform_comprehensive_assessment upgrade_path deprecated_apis
        breaking_changes addon_recommendations node_groups).overall_risk) =
      Nat.max (Nat.max (Nat.max (Nat.max
        (get_risk_score (assess_deprecated_api_risk deprecated_apis).risk_level)
        (get_risk_score (assess_breaking_changes_risk breaking_changes).risk_level))
        (get_risk_score (assess_addon_compatibility_risk addon_recommendations).risk_level))
        (get_risk_score (assess_version_jump_risk upgrade_path).risk_level))
        (get_risk_score (assess_cluster_size_risk node_groups).risk_level) ∧
    (∀ L : RiskLevel,
      get_risk_score L =
        get_risk_score ((perform_comprehensive_assessment upgrade_path deprecated_apis
          breaking_changes addon_recommendations node_groups).overall_risk) →
      (perform_comprehensive_assessment upgrade_path deprecated_apis
        breaking_changes addon_recommendations node_groups).overall_risk = L) ∧
    ((perform_comprehensive_assessment upgrade_path deprecated_apis
        breaking_changes addon_recommendations node_groups).rollback_required = true ↔
      ((perform_comprehensive_assessment upgrade_path deprecated_apis
          breaking_changes addon_recommendations node_groups).overall_risk =
        RiskLevel.HIGH ∨
       (perform_comprehensive_assessment upgrade_path deprecated_apis
          breaking_changes addon_recommendations node_groups).overall_risk =
        RiskLevel.CRITICAL)) ∧
    (perform_comprehensive_assessment upgrade_path deprecated_apis
      breaking_changes addon_recommendations node_groups).staging_test_required =
      true := by
  have hover : (perform_comprehensive_assessment upgrade_path deprecated_apis
      breaking_changes addon_recommendations node_groups).overall_risk =
      calculate_overall_risk
        [(assess_deprecated_api_risk deprecated_apis).risk_level,
         (assess_breaking_changes_risk breaking_changes).risk_level,
         (assess_addon_compatibility_risk addon_recommendations).risk_level,
         (assess_version_jump_risk upgrade_path).risk_level,
         (assess_cluster_size_risk node_groups).risk_level] := rfl
  refine ⟨?_, ?_, ?_, rfl⟩
  · rw [hover]
    exact calculate_overall_risk_score _ _ _ _ _
  · intro L h
    exact (get_risk_score_inj _ _ h).symm
  · have hrb : (perform_comprehensive_assessment upgrade_path deprecated_apis
        breaking_changes addon_recommendations node_groups).rollback_required =
        decide (calculate_overall_risk
            [(assess_deprecated_api_risk deprecated_apis).risk_level,
             (assess_breaking_changes_risk breaking_changes).risk_level,
             (assess_addon_compatibility_risk addon_recommendations).risk_level,
             (assess_version_jump_risk upgrade_path).risk_level,
             (assess_cluster_size_risk node_groups).risk_level] = RiskLevel.HIGH ∨
          calculate_overall_risk
            [(assess_deprecated_api_risk deprecated_apis).risk_level,
             (assess_breaking_changes_risk breaking_changes).risk_level,
             (assess_addon_compatibility_risk addon_recommendations).risk_level,
             (assess_version_jump_risk upgrade_path).risk_level,
             (assess_cluster_size_risk node_groups).risk_level] =
            RiskLevel.CRITICAL) := rfl
    rw [hrb, hover]
    exact decide_eq_true_iff

/-- C5 witness: on empty inputs the version-jump factor is HIGH (a path of
length 0 has -1 jumps, hitting the else branch), so the overall level is
HIGH, obtained through the aggregation theorem. -/
theorem C5_overall_risk_aggregation_witness :
    (perform_comprehensive_assessment [] [] [] [] []).overall_risk =
      RiskLevel.HIGH :=
  (C5_overall_risk_aggregation [] [] [] [] []).2.1 RiskLevel.HIGH (by decide)

/-- C4: for well-formed, catalog-supported versions, `can_upgrade_directly`
follows the ordered cases: downgrade rejected, same version allowed,
consecutive minor allowed, larger same-major gaps rejected as skipping,
and a remaining major difference rejected as cross-major. -/
theorem C4_can_upgrade_directly (supported : SupportedSet)
    (from_version to_version : PyStr)
    (hvf : validate_version_format from_version = true)
    (hvt : validate_version_format to_version = true)
    (hsf : supported from_version = true)
    (hst : supported to_version = true)
    (fM fm tM tm : Int)
    (hpf : parse_version from_version = some (fM, fm))
    (hpt : parse_version to_version = some (tM, tm)) :
    (tM < fM ∨ (tM = fM ∧ tm < fm) →
      can_upgrade_directly supported from_version to_version =
        (false, "Cannot downgrade EKS versions".data)) ∧
    (tM = fM ∧ tm = fm →
      can_upgrade_directly supported from_version to_version =
        (true, "Same version (no upgrade needed)".data)) ∧
    (tM = fM ∧ tm = fm + 1 →
      can_upgrade_directly supported from_version to_version =
        (true, "Direct upgrade supported".data)) ∧
    (tM = fM ∧ fm + 1 < tm →
      can_upgrade_directly supported from_version to_version =
        (false, "Cannot skip minor versions in EKS upgrade".data)) ∧
    (tM ≠ fM → ¬ (tM < fM ∨ (tM = fM ∧ tm < fm)) →
      can_upgrade_directly supported from_version to_version =
        (false, "Cannot upgrade across major versions".data)) := by
  have hbase : can_upgrade_directly supported from_version to_version =
      (if tM < fM ∨ (tM = fM ∧ tm < fm) then
        (false, "Cannot downgrade EKS versions".data)
      else if tM = fM ∧ tm = fm then
        (true, "Same version (no upgrade needed)".data)
      else if tM = fM then
        if tm - fm = 1 then (true, "Direct upgrade supported".data)
        else if tm - fm > 1 then
          (false, "Cannot skip minor versions in EKS upgrade".data)
        else (true, "Direct upgrade supported".data)
      else (false, "Cannot upgrade across major versions".data)) := by
    unfold can_upgrade_directly
    rw [hvf, hvt, hsf, hst]
    simp only [Bool.not_true, Bool.false_eq_true, if_false]
    rw [hpf, hpt]
  refine ⟨?_, ?_, ?_, ?_, ?_⟩
  · intro h
    rw [hbase, if_pos h]
  · rintro ⟨h1, h2⟩
    rw [hbase, if_neg (by omega), if_pos ⟨h1, h2⟩]
  · rintro ⟨h1, h2⟩
    rw [hbase, if_neg (by omega), if_neg (by omega), if_pos h1,
      if_pos (by omega : tm - fm = 1)]
  · rintro ⟨h1, h2⟩
    rw [hbase, if_neg (by omega), if_neg (by omega), if_pos h1,
      if_neg (by omega : ¬ tm - fm = 1), if_pos (by omega : tm - fm > 1)]
  · intro h1 h2
    rw [hbase, if_neg h2, if_neg (by tauto), if_neg h1]

/-- C4 witness: a consecutive same-major upgrade on a concrete two-element
catalog is allowed. -/
theorem C4_can_upgrade_directly_witness :
    can_upgrade_directly
      (fun v => v = "1.27".data || v = "1.28".data)
      "1.27".data "1.28".data = (true, "Direct upgrade supported".data) :=
  (C4_can_upgrade_directly
    (fun v => v = "1.27".data || v = "1.28".data)
    "1.27".data "1.28".data
    (by decide) (by decide) (by decide) (by decide)
    1 27 1 28 (by decide) (by decide)).2.2.1 (by decide)

/-- C6: `generate_upgrade_path` returns the single-element path when the
current version has met or passed the target under (major, minor)
comparison, and for same-major current < target it returns the chain of
sequential minor versions, one element per minor, rendered canonically. -/
theorem C6_generate_upgrade_path (current_version target_version : PyStr)
    (cM cm tM tm : Int)
    (hc : split2int current_version = some (cM, cm))
    (ht : split2int target_version = some (tM, tm)) :
    (specPairGE (cM, cm) (tM, tm) →
      generate_upgrade_path current_version target_version = [current_version]) ∧
    (cM = tM → cm < tm →
      generate_upgrade_path current_version target_version =
        current_version ::
          (List.range (tm - cm).toNat).map
            (fun i => intChars cM ++ '.' :: intChars (cm + 1 + i))) := by
  have hbase : generate_upgrade_path current_version target_version =
      (if cM > tM ∨ (cM = tM ∧ cm ≥ tm) then [current_version]
      else if cM = tM then
        current_version ::
          (List.range (tm - cm).toNat).map
            (fun i => intChars cM ++ '.' :: intChars (cm + 1 + i))
      else [current_version, target_version]) := by
    unfold generate_upgrade_path
    rw [hc, ht]
  constructor
  · intro h
    rcases h with h | ⟨h1, h2⟩
    · rw [hbase, if_pos (Or.inl h)]
    · rw [hbase, if_pos (Or.inr ⟨h1, h2⟩)]
  · intro h1 h2
    rw [hbase, if_neg (by omega), if_pos h1]

/-- C6 witness: the chain from "1.27" to "1.29" is exactly
["1.27", "1.28", "1.29"]. -/
theorem C6_generate_upgrade_path_witness :
    generate_upgrade_path "1.27".data "1.29".data =
      ["1.27".data, "1.28".data, "1.29".data] := by
  have h := (C6_generate_upgrade_path "1.27".data "1.29".data 1 27 1 29
    (by decide) (by decide)).2 rfl (by decide)
  rw [h]
  decide

theorem pyInStr_iff_infix (n h : PyStr) : pyInStr n h = true ↔ n <:+: h := by
  induction h with
  | nil =>
    simp only [pyInStr, List.isEmpty_iff, List.infix_nil]
  | cons c t ih =>
    simp only [pyInStr, Bool.or_eq_true, ih, List.isPrefixOf_iff_prefix,
      List.infix_cons_iff]

/-- C7: `determine_addon_upgrade_order` tags every addon with the fixed
priority table and the before/after-control-plane timing (priority ≤ 3 ⇒
before), and returns a permutation of the tagged input that is sorted by
ascending priority, stable (each priority class keeps its input order), so
any element of strictly smaller priority precedes any element of larger
priority, for every input list. -/
theorem C7_determine_addon_upgrade_order (addons : List Addon) :
    (determine_addon_upgrade_order addons).Perm (addons.map tag_addon) ∧
    (∀ x ∈ determine_addon_upgrade_order addons,
      x.upgrade_priority = addon_priority x.name ∧
      (x.upgrade_timing = UpgradeTiming.before_eks ↔ x.upgrade_priority ≤ 3)) ∧
    (determine_addon_upgrade_order addons).Pairwise priorityLE ∧
    (∀ k : Nat, (determine_addon_upgrade_order addons).filter
        (fun x => x.upgrade_priority = k) =
      (addons.map tag_addon).filter (fun x => x.upgrade_priority = k)) ∧
    (∀ i j (hi : i < (determine_addon_upgrade_order addons).length)
        (hj : j < (determine_addon_upgrade_order addons).length),
      ((determine_addon_upgrade_order addons).get ⟨i, hi⟩).upgrade_priority <
        ((determine_addon_upgrade_order addons).get ⟨j, hj⟩).upgrade_priority →
      i < j) ∧
    (addon_priority "vpc-cni".data = 1 ∧ addon_priority "kube-proxy".data = 2 ∧
     addon_priority "coredns".data = 3 ∧
     addon_priority "aws-ebs-csi-driver".data = 4 ∧
     ∀ n : PyStr, n ≠ "vpc-cni".data → n ≠ "kube-proxy".data →
       n ≠ "coredns".data → n ≠ "aws-ebs-csi-driver".data →
       addon_priority n = 99) := by
  have hperm : (determine_addon_upgrade_order addons).Perm (addons.map tag_addon) :=
    List.perm_insertionSort priorityLE (addons.map tag_addon)
  have hsorted : (determine_addon_upgrade_order addons).Pairwise priorityLE :=
    List.sorted_insertionSort priorityLE (addons.map tag_addon)
  refine ⟨hperm, ?_, hsorted, ?_, ?_, ?_⟩
  · intro x hx
    obtain ⟨a, _, rfl⟩ := List.mem_map.mp (hperm.mem_iff.mp hx)
    refine ⟨rfl, ?_⟩
    show (if addon_priority a.name ≤ 3 then UpgradeTiming.before_eks
      else UpgradeTiming.after_eks) = UpgradeTiming.before_eks ↔
      addon_priority a.name ≤ 3
    by_cases h : addon_priority a.name ≤ 3
    · rw [if_pos h]
      exact ⟨fun _ => h, fun _ => rfl⟩
    · rw [if_neg h]
      exact ⟨fun hc => absurd hc.symm (by simp), fun hc => absurd hc h⟩
  · intro k
    have hall : ∀ x ∈ (addons.map tag_addon).filter
        (fun x => x.upgrade_priority = k), x.upgrade_priority = k :=
      fun x hx => of_decide_eq_true (List.mem_filter.mp hx).2
    have hpw : ((addons.map tag_addon).filter
        (fun x => x.upgrade_priority = k)).Pairwise priorityLE :=
      List.pairwise_of_forall_mem_list fun a ha b hb =>
        le_of_eq ((hall a ha).trans (hall b hb).symm)
    have hsub : List.Sublist
        ((addons.map tag_addon).filter (fun x => x.upgrade_priority = k))
        (determine_addon_upgrade_order addons) :=
      List.sublist_insertionSort hpw (List.filter_sublist _)
    have hsub2 : List.Sublist
        ((addons.map tag_addon).filter (fun x => x.upgrade_priority = k))
        ((determine_addon_upgrade_order addons).filter
          (fun x => x.upgrade_priority = k)) := by
      have := hsub.filter (fun x => decide (x.upgrade_priority = k))
      rwa [List.filter_filter, show ∀ l : List OrderedAddon,
        l.filter (fun x => decide (x.upgrade_priority = k) &&
          decide (x.upgrade_priority = k)) =
        l.filter (fun x => decide (x.upgrade_priority = k)) from
        fun l => List.filter_congr (fun x _ => by cases hd : decide (x.upgrade_priority = k) <;> simp [hd])] at this
    have hlen : ((determine_addon_upgrade_order addons).filter
        (fun x => x.upgrade_priority = k)).length =
        ((addons.map tag_addon).filter (fun x => x.upgrade_priority = k)).length :=
      (hperm.filter _).length_eq
    exact (hsub2.eq_of_length hlen.symm).symm
  · intro i j hi hj hlt
    by_contra hij
    push_neg at hij
    rcases Nat.lt_or_ge j i with hji | hge
    · have hle := List.pairwise_iff_get.mp hsorted ⟨j, hj⟩ ⟨i, hi⟩ hji
      exact absurd hle (by unfold priorityLE; omega)
    · have : i = j := Nat.le_antisymm (Nat.le_of_not_lt (by omega)) (by omega)
      subst this
      exact Nat.lt_irrefl _ hlt
  · refine ⟨rfl, rfl, rfl, rfl, ?_⟩
    intro n h1 h2 h3 h4
    simp [addon_priority, h1, h2, h3, h4]

/-- C7 witness: with input [other, coredns, vpc-cni] the network plugin
sorts first, and the index-ordering clause applies at positions 0 and 1. -/
theorem C7_determine_addon_upgrade_order_witness :
    (determine_addon_upgrade_order
        [⟨"x".data, "1".data⟩, ⟨"coredns".data, "1".data⟩,
         ⟨"vpc-cni".data, "1".data⟩]).Perm
      ([⟨"x".data, "1".data⟩, ⟨"coredns".data, "1".data⟩,
        ⟨"vpc-cni".data, "1".data⟩].map tag_addon) ∧ (0 : Nat) < 1 :=
  ⟨(C7_determine_addon_upgrade_order _).1,
   (C7_determine_addon_upgrade_order
      [⟨"x".data, "1".data⟩, ⟨"coredns".data, "1".data⟩,
       ⟨"vpc-cni".data, "1".data⟩]).2.2.2.2.1 0 1
      (by decide) (by decide) (by decide)⟩

/-- C8: `check_addon_compatibility` returns `(false, none)` when either
catalog level has no entry; with an entry `[minimum, recommended]` it is
compatible exactly when the current version is a substring of the minimum or
of the recommended string, and the recommendation is always the catalog's
recommended field. -/
theorem C8_check_addon_compatibility (catalog : AddonCatalog)
    (addon_name addon_version eks_version : PyStr) :
    (catalog eks_version = none →
      check_addon_compatibility catalog addon_name addon_version eks_version =
        (false, none)) ∧
    (∀ addonMap : PyStr → Option (List PyStr),
      catalog eks_version = some addonMap →
      (addonMap addon_name = none →
        check_addon_compatibility catalog addon_name addon_version eks_version =
          (false, none)) ∧
      (∀ minimum recommended : PyStr,
        addonMap addon_name = some [minimum, recommended] →
        ((check_addon_compatibility catalog addon_name addon_version
            eks_version).1 = true ↔
          (addon_version <:+: minimum ∨ addon_version <:+: recommended)) ∧
        (check_addon_compatibility catalog addon_name addon_version
            eks_version).2 = some recommended)) := by
  constructor
  · intro hnone
    simp only [check_addon_compatibility, hnone]
  · intro addonMap hcat
    constructor
    · intro hnone
      simp only [check_addon_compatibility, hcat, hnone]
    · intro minimum recommended hentry
      have hred : check_addon_compatibility catalog addon_name addon_version
          eks_version =
          (pyInStr addon_version minimum || (pyInStr addon_version recommended || false),
           some recommended) := by
        simp only [check_addon_compatibility, hcat, hentry]
        rfl
      rw [hred]
      constructor
      · simp only [Bool.or_false, Bool.or_eq_true, pyInStr_iff_infix]
      · rfl

/-- C8 witness: at target "1.29" with a coredns entry whose minimum is
exactly the current version, the addon is compatible and the catalog's
recommended field is returned. -/
theorem C8_check_addon_compatibility_witness :
    (check_addon_compatibility
      (fun v => if v = "1.29".data then
        some (fun a => if a = "coredns".data then
          some ["v1.10.1-eksbuild.4".data, "v1.11.1-eksbuild.4".data] else none)
        else none)
      "coredns".data "v1.10.1-eksbuild.4".data "1.29".data).1 = true ∧
    (check_addon_compatibility
      (fun v => if v = "1.29".data then
        some (fun a => if a = "coredns".data then
          some ["v1.10.1-eksbuild.4".data, "v1.11.1-eksbuild.4".data] else none)
        else none)
      "coredns".data "v1.10.1-eksbuild.4".data "1.29".data).2 =
      some "v1.11.1-eksbuild.4".data := by
  have h := ((C8_check_addon_compatibility
    (fun v => if v = "1.29".data then
      some (fun a => if a = "coredns".data then
        some ["v1.10.1-eksbuild.4".data, "v1.11.1-eksbuild.4".data] else none)
      else none)
    "coredns".data "v1.10.1-eksbuild.4".data "1.29".data).2
    (fun a => if a = "coredns".data then
      some ["v1.10.1-eksbuild.4".data, "v1.11.1-eksbuild.4".data] else none)
    (by rfl)).2 "v1.10.1-eksbuild.4".data "v1.11.1-eksbuild.4".data (by rfl)
  exact ⟨h.1.mpr (Or.inl List.infix_rfl), h.2⟩

/-- C10: with any catalog entry `[minimum, recommended]` present, the empty
current version is reported compatible (the substring test holds
trivially), and likewise any fragment of the minimum or recommended string. -/
theorem C10_empty_version_compatible (catalog : AddonCatalog)
    (addon_name eks_version : PyStr)
    (addonMap : PyStr → Option (List PyStr))
    (minimum recommended : PyStr)
    (hcat : catalog eks_version = some addonMap)
    (hentry : addonMap addon_name = some [minimum, recommended]) :
    (check_addon_compatibility catalog addon_name [] eks_version).1 = true ∧
    (∀ frag : PyStr, (frag <:+: minimum ∨ frag <:+: recommended) →
      (check_addon_compatibility catalog addon_name frag eks_version).1 = true) := by
  have hred : ∀ v : PyStr, (check_addon_compatibility catalog addon_name v
      eks_version).1 =
      (pyInStr v minimum || (pyInStr v recommended || false)) := by
    intro v
    simp only [check_addon_compatibility, hcat, hentry]
    rfl
  constructor
  · rw [hred]
    simp only [Bool.or_false, Bool.or_eq_true, pyInStr_iff_infix]
    exact Or.inl List.nil_infix
  · intro frag hfrag
    rw [hred]
    simp only [Bool.or_false, Bool.or_eq_true, pyInStr_iff_infix]
    exact hfrag

/-- C10 witness: the empty string and the fragment "1" are both reported
compatible against a concrete coredns entry. -/
theorem C10_empty_version_compatible_witness :
    (check_addon_compatibility
      (fun v => if v = "1.29".data then
        some (fun a => if a = "coredns".data then
          some ["v1.10.1".data, "v1.11.1".data] else none)
        else none)
      "coredns".data [] "1.29".data).1 = true ∧
    (check_addon_compatibility
      (fun v => if v = "1.29".data then
        some (fun a => if a = "coredns".data then
          some ["v1.10.1".data, "v1.11.1".data] else none)
        else none)
      "coredns".data "1".data "1.29".data).1 = true := by
  have h := C10_empty_version_compatible
    (fun v => if v = "1.29".data then
      some (fun a => if a = "coredns".data then
        some ["v1.10.1".data, "v1.11.1".data] else none)
      else none)
    "coredns".data "1.29".data
    (fun a => if a = "coredns".data then
      some ["v1.10.1".data, "v1.11.1".data] else none)
    "v1.10.1".data "v1.11.1".data (by rfl) (by rfl)
  exact ⟨h.1, h.2 "1".data (Or.inl (by decide))⟩

/-- C9: `validate_upgrade_path` never aborts: the result always carries the
complete per-addon recommendation list (one entry per input addon, in
order); `blocking_issues` has a version-incompatibility entry exactly when
`can_upgrade_directly` rejects the pair, and an addon-compatibility entry —
listing exactly the addons needing action — exactly when some addon is
incompatible; both appear together when both hold, and `blocking_issues` is
empty exactly when the upgrade is legal and every addon is compatible. -/
theorem C9_validate_upgrade_path (supported : SupportedSet)
    (catalog : AddonCatalog) (current_version target_version : PyStr)
    (current_addons : List Addon) :
    (validate_upgrade_path supported catalog current_version target_version
        current_addons).addon_recommendations =
      get_addon_recommendations catalog current_addons target_version ∧
    (validate_upgrade_path supported catalog current_version target_version
        current_addons).addon_recommendations.length = current_addons.length ∧
    (validate_upgrade_path supported catalog current_version target_version
        current_addons).addon_recommendations.map (fun r => r.addon_name) =
      current_addons.map (fun a => a.name) ∧
    ((∃ m, BlockingIssue.version_incompatibility m ∈
        (validate_upgrade_path supported catalog current_version target_version
          current_addons).blocking_issues) ↔
      (can_upgrade_directly supported current_version target_version).1 = false) ∧
    ((∃ m l, BlockingIssue.addon_compatibility m l ∈
        (validate_upgrade_path supported catalog current_version target_version
          current_addons).blocking_issues) ↔
      ∃ r ∈ (validate_upgrade_path supported catalog current_version
          target_version current_addons).addon_recommendations,
        r.action_required = true) ∧
    (∀ m l, BlockingIssue.addon_compatibility m l ∈
        (validate_upgrade_path supported catalog current_version target_version
          current_addons).blocking_issues →
      l = (validate_upgrade_path supported catalog current_version
          target_version current_addons).addon_recommendations.filter
        (fun r => r.action_required)) ∧
    ((validate_upgrade_path supported catalog current_version target_version
        current_addons).blocking_issues = [] ↔
      ((can_upgrade_directly supported current_version target_version).1 = true ∧
       ∀ r ∈ (validate_upgrade_path supported catalog current_version
          target_version current_addons).addon_recommendations,
        r.action_required = false)) := by
  have hrec : (validate_upgrade_path supported catalog current_version
      target_version current_addons).addon_recommendations =
      get_addon_recommendations catalog current_addons target_version := rfl
  have hbi : (validate_upgrade_path supported catalog current_version
      target_version current_addons).blocking_issues =
      (if !(can_upgrade_directly supported current_version target_version).1 then
        [BlockingIssue.version_incompatibility
          (can_upgrade_directly supported current_version target_version).2]
      else []) ++
      (if (get_addon_recommendations catalog current_addons
          target_version).any (fun r => r.action_required) then
        [BlockingIssue.addon_compatibility
          "Some addons require updates before upgrade".data
          ((get_addon_recommendations catalog current_addons
            target_version).filter (fun r => r.action_required))]
      else []) := rfl
  refine ⟨hrec, ?_, ?_, ?_, ?_, ?_, ?_⟩
  · rw [hrec]
    simp [get_addon_recommendations]
  · rw [hrec]
    simp only [get_addon_recommendations, List.map_map]
    rfl
  · constructor
    · rintro ⟨m, hm⟩
      rw [hbi] at hm
      rcases List.mem_append.mp hm with h | h
      · split at h
        · next hcond => simpa using hcond
        · simp at h
      · split at h
        · simp at h
        · simp at h
    · intro hfalse
      refine ⟨(can_upgrade_directly supported current_version target_version).2, ?_⟩
      rw [hbi]
      apply List.mem_append.mpr (Or.inl ?_)
      rw [hfalse]
      simp
  · constructor
    · rintro ⟨m, l, hm⟩
      rw [hbi] at hm
      rcases List.mem_append.mp hm with h | h
      · split at h <;> simp at h
      · split at h
        · next hcond =>
          rw [hrec]
          exact List.any_eq_true.mp hcond
        · simp at h
    · rintro ⟨r, hr, hra⟩
      rw [hrec] at hr
      have hany : (get_addon_recommendations catalog current_addons
          target_version).any (fun r => r.action_required) = true :=
        List.any_eq_true.mpr ⟨r, hr, hra⟩
      refine ⟨"Some addons require updates before upgrade".data,
        (get_addon_recommendations catalog current_addons
          target_version).filter (fun r => r.action_required), ?_⟩
      rw [hbi]
      apply List.mem_append.mpr (Or.inr ?_)
      rw [hany]
      simp
  · intro m l hml
    rw [hbi] at hml
    rw [hrec]
    rcases List.mem_append.mp hml with h | h
    · split at h <;> simp at h
    · split at h
      · simp at h
        exact h.2
      · simp at h
  · rw [hbi, hrec]
    constructor
    · intro h
      rcases List.append_eq_nil.mp h with ⟨h1, h2⟩
      constructor
      · by_contra hc
        rw [Bool.eq_false_iff.mpr hc] at h1
        simp at h1
      · intro r hr
        by_contra hc
        have hra : r.action_required = true := by
          cases hx : r.action_required
          · exact absurd hx hc
          · rfl
        have hany : (get_addon_recommendations catalog current_addons
            target_version).any (fun r => r.action_required) = true :=
          List.any_eq_true.mpr ⟨r, hr, hra⟩
        rw [hany] at h2
        simp at h2
    · rintro ⟨h1, h2⟩
      have hany : (get_addon_recommendations catalog current_addons
          target_version).any (fun r => r.action_required) = false := by
        rw [List.any_eq_false]
        intro x hx
        rw [h2 x hx]
        simp
      rw [h1, hany]
      simp

/-- C9 witness: a legal consecutive upgrade with no addons yields an empty
`blocking_issues` list, through the emptiness clause. -/
theorem C9_validate_upgrade_path_witness :
    (validate_upgrade_path
      (fun v => v = "1.27".data || v = "1.28".data)
      (fun _ => none)
      "1.27".data "1.28".data []).blocking_issues = [] :=
  (C9_validate_upgrade_path
    (fun v => v = "1.27".data || v = "1.28".data)
    (fun _ => none)
    "1.27".data "1.28".data []).2.2.2.2.2.2.mpr
    ⟨by decide, fun r hr => absurd hr (List.not_mem_nil r)⟩

end EksPlanner
